import Mathlib

/-!
Shallow embedding of `src/docker/ffmpeg/handler.py` (ClipForge FFmpeg
handler for RunPod).

Modelling conventions:
* Python floats (`start_time`, `duration`, probed duration, thumbnail
  `time`) are modelled as rationals `ℚ`; every comparison and the
  clamping subtraction used by the handler are exact on the values the
  claims quantify over.
* The outside world (HTTP download, the ffprobe and ffmpeg subprocesses,
  the bytes of the produced artifact, whether `shutil.rmtree` succeeds)
  is an explicit environment record `Env` passed to the handler; the
  handler is a pure function of the request and the environment.
* The handler's observable behaviour is its returned response, the
  ordered trace of external effects it performed, and whether the
  temporary workspace directory still exists after it returns.
* `base64.b64encode` is an injective encoding of the artifact bytes and
  is elided: the response carries the raw bytes and their length
  (`file_size` is computed from the raw bytes in the source as well).
-/

namespace ClipForge

/-- A parsed job input: `event["input"]` with each field either absent or
present, mirroring `job_input.get(...)` accesses in the source. -/
structure JobInput where
  operation : Option String
  video_url : Option String
  start_time : Option ℚ
  duration : Option ℚ
  time : Option ℚ
  quality : Option String
  output_format : Option String
deriving DecidableEq, Repr

/-- `event.get('input', {})` default. -/
def emptyInput : JobInput := ⟨none, none, none, none, none, none, none⟩

/-- Behaviour of one external `ffmpeg` subprocess invocation:
how long the process would run, its exit code, its captured streams, and
the state of the output file it leaves behind. -/
structure ProcEnv where
  runningTime : Nat
  returncode : Int
  stdoutv : String
  stderrv : String
  outputExists : Bool
  outputSize : Nat
deriving DecidableEq, Repr

/-- Result of `subprocess.run(cmd, capture_output=True, timeout=...)`:
either the timeout expired or the process finished. -/
inductive RunResult where
  | timeout
  | finished (returncode : Int) (stdoutv stderrv : String)
deriving DecidableEq, Repr

/-- `subprocess.run` with a timeout: raises (models as `.timeout`) when
the process needs longer than the timeout, otherwise returns the
completed process. -/
def runProcess (_cmd : List String) (timeoutSec : Nat) (p : ProcEnv) : RunResult :=
  if timeoutSec < p.runningTime then .timeout
  else .finished p.returncode p.stdoutv p.stderrv

/-- One entry of the `quality_presets` table: `{'crf': ..., 'preset': ...}`. -/
structure QualitySettings where
  crf : String
  speed : String
deriving DecidableEq, Repr

/-- The `quality_presets` dict of `extract_clip`, as a lookup function. -/
def quality_presets (q : String) : Option QualitySettings :=
  if q = "high" then some ⟨"23", "fast"⟩
  else if q = "medium" then some ⟨"25", "faster"⟩
  else if q = "low" then some ⟨"28", "veryfast"⟩
  else none

/-- `quality_presets.get(quality, quality_presets['medium'])`; the lookup
of the literal key "medium" always succeeds, so the second `getD` default
is never used. -/
def clipSettings (q : String) : QualitySettings :=
  (quality_presets q).getD ((quality_presets "medium").getD ⟨"25", "faster"⟩)

/-- `url.split('?')[0]`: the prefix of the string before the first `?`. -/
def dropQuery (p : String) : String :=
  String.mk (p.toList.takeWhile (fun c => c ≠ '?'))

/-- `os.path.splitext(p)[1]`: the extension (with dot) of the last path
component, where leading dots of the basename do not start an extension. -/
def splitextExt (p : String) : String :=
  let base := (p.toList.reverse.takeWhile (fun c => c ≠ '/')).reverse
  let rest := base.dropWhile (fun c => c = '.')
  if rest.contains '.' then
    String.mk ('.' :: (rest.reverse.takeWhile (fun c => c ≠ '.')).reverse)
  else ""

/-- The argument list built by `extract_clip`. -/
def extractClipCmd (input_path output_path : String) (start_time duration : ℚ)
    (quality : String) : List String :=
  let settings := clipSettings quality
  ["ffmpeg", "-ss", toString start_time, "-i", input_path,
   "-t", toString duration, "-c:v", "libx264",
   "-preset", settings.speed, "-crf", settings.crf,
   "-c:a", "aac", "-b:a", "128k", "-ar", "44100",
   "-movflags", "+faststart", "-pix_fmt", "yuv420p", "-y", output_path]

/-- `extract_clip`: run ffmpeg with a 600-second (10-minute) timeout and
check the post-conditions. Errors are the `str(e)` texts the handler
would report: exceptions raised inside the `try` body are re-wrapped by
the generic `except` clause with the "FFmpeg error: " prefix, while the
`TimeoutExpired` branch raises its own message that is not re-wrapped. -/
def extract_clip (input_path output_path : String) (start_time duration : ℚ)
    (quality : String) (p : ProcEnv) : Except String String :=
  let cmd := extractClipCmd input_path output_path start_time duration quality
  match runProcess cmd 600 p with
  | .timeout => .error "FFmpeg processing timed out after 10 minutes"
  | .finished rc _ stderr =>
    if rc ≠ 0 then .error ("FFmpeg error: FFmpeg processing failed: " ++ stderr)
    else if p.outputExists = false then .error "FFmpeg error: Output file was not created"
    else if p.outputSize = 0 then .error "FFmpeg error: Output file is empty"
    else .ok output_path

/-- The argument list built by `generate_thumbnail`. -/
def thumbnailCmd (input_path output_path : String) (time : ℚ) : List String :=
  ["ffmpeg", "-ss", toString time, "-i", input_path,
   "-vframes", "1", "-q:v", "2", "-vf", "scale=-2:720", "-y", output_path]

/-- `generate_thumbnail`: run ffmpeg with a 30-second timeout; check exit
code and output-file existence (there is no emptiness check: the file
size is only read for logging). All exceptions, the timeout included,
are re-wrapped with the "Thumbnail error: " prefix. -/
def generate_thumbnail (input_path output_path : String) (time : ℚ)
    (p : ProcEnv) : Except String String :=
  let cmd := thumbnailCmd input_path output_path time
  match runProcess cmd 30 p with
  | .timeout => .error "Thumbnail error: Command timed out after 30 seconds"
  | .finished rc _ stderr =>
    if rc ≠ 0 then .error ("Thumbnail error: Thumbnail generation failed: " ++ stderr)
    else if p.outputExists = false then .error "Thumbnail error: Thumbnail file was not created"
    else .ok output_path

/-- External effects of one handler run, in program order. -/
inductive Event where
  | mkdtempCall
  | downloadCall
  | probeCall
  | warnProbe
  | warnClamp
  | ffmpegExtractCall (start_time duration : ℚ) (quality : String)
  | ffmpegThumbnailCall (time : ℚ)
  | rmtreeCall
  | warnCleanup
deriving DecidableEq, Repr

/-- Is the event an invocation of the transcoding tool? -/
def Event.isTranscode : Event → Bool
  | .ffmpegExtractCall _ _ _ => true
  | .ffmpegThumbnailCall _ => true
  | _ => false

/-- `get_video_duration`: on probe success the parsed value, on any
failure `0.0` together with the recorded warning. -/
def get_video_duration (probe : Option ℚ) : ℚ × List Event :=
  match probe with
  | some v => (v, [])
  | none => (0, [.warnProbe])

/-- The response dict produced by the handler, one constructor per shape
(`success: true` for the first two, `success: false` for `failure`). -/
inductive Response where
  | clipSuccess (operation : String) (clip_data : List Nat) (file_size : Nat)
      (format : String) (start_time duration : ℚ) (quality : String)
      (video_duration : ℚ)
  | thumbSuccess (operation : String) (thumbnail_data : List Nat)
      (file_size : Nat) (format : String) (time : ℚ)
  | failure (error : String) (operation : String)
deriving DecidableEq, Repr

/-- The environment one job runs in. -/
structure Env where
  /-- the unique directory name `tempfile.mkdtemp()` returns -/
  temp_dir : String
  /-- `none`: the download succeeds; `some e`: it raises with text `e` -/
  download : Option String
  /-- `some v`: ffprobe succeeds and its stdout parses to `v`;
  `none`: any probe failure (tool missing, bad exit, unparsable) -/
  probe : Option ℚ
  /-- behaviour of the ffmpeg invocation made by this job -/
  ffmpeg : ProcEnv
  /-- the bytes `f.read()` returns from the output artifact -/
  fileData : List Nat
  /-- whether `shutil.rmtree(temp_dir)` succeeds -/
  rmtreeOk : Bool
deriving DecidableEq, Repr

/-- What a handler run leaves behind: the returned response, the trace of
external effects, and whether the workspace directory still exists. -/
structure HandlerResult where
  response : Response
  trace : List Event
  workspaceExists : Bool
deriving DecidableEq, Repr

/-- The body of the handler's `try` block after `tempfile.mkdtemp()`:
download, probe, dispatch on `operation`, run the tool, read and encode
the artifact. Returns the successful response or the exception text,
together with the effect trace of the body. -/
def handlerCore (env : Env) (job_input : JobInput) (input_path : String) :
    Except String Response × List Event :=
  match env.download with
  | some e => (.error ("Download failed: " ++ e), [.downloadCall])
  | none =>
    let probed := get_video_duration env.probe
    let video_duration := probed.1
    let pre := Event.downloadCall :: Event.probeCall :: probed.2
    let operation := job_input.operation.getD "extract_clip"
    if operation = "generate_thumbnail" then
      let time := job_input.time.getD 0
      let output_path := env.temp_dir ++ "/thumbnail.jpg"
      let tr := pre ++ [Event.ffmpegThumbnailCall time]
      match generate_thumbnail input_path output_path time env.ffmpeg with
      | .error e => (.error e, tr)
      | .ok _ =>
        (.ok (.thumbSuccess "generate_thumbnail" env.fileData
              env.fileData.length "jpg" time), tr)
    else
      let start_time := job_input.start_time.getD 0
      let duration := job_input.duration.getD 30
      let quality := job_input.quality.getD "medium"
      let output_format := job_input.output_format.getD "mp4"
      if start_time < 0 then (.error "start_time must be >= 0", pre)
      else if duration ≤ 0 then (.error "duration must be > 0", pre)
      else
        let clamp := video_duration > 0 ∧ start_time + duration > video_duration
        let duration2 := if clamp then video_duration - start_time else duration
        let clampWarn : List Event := if clamp then [.warnClamp] else []
        let output_path := env.temp_dir ++ "/output." ++ output_format
        let tr := pre ++ clampWarn ++ [Event.ffmpegExtractCall start_time duration2 quality]
        match extract_clip input_path output_path start_time duration2 quality env.ffmpeg with
        | .error e => (.error e, tr)
        | .ok _ =>
          (.ok (.clipSuccess "extract_clip" env.fileData env.fileData.length
                output_format start_time duration2 quality video_duration), tr)

/-- The RunPod `handler` function. `eventInput` is `event.get('input')`;
validation of `video_url` happens before `mkdtemp`, so on that failure no
workspace ever exists; otherwise the `finally` clause always attempts
`shutil.rmtree`, and a cleanup failure is logged, leaving the directory
behind but not changing the response. -/
def handler (env : Env) (eventInput : Option JobInput) : HandlerResult :=
  let job_input := eventInput.getD emptyInput
  let failOp := job_input.operation.getD "unknown"
  if job_input.video_url.getD "" = "" then
    { response := .failure "video_url is required" failOp
      trace := []
      workspaceExists := false }
  else
    let video_url := job_input.video_url.getD ""
    let url_path := dropQuery video_url
    let input_ext := if splitextExt url_path = "" then ".mp4" else splitextExt url_path
    let input_path := env.temp_dir ++ "/input" ++ input_ext
    let core := handlerCore env job_input input_path
    let response := match core.1 with
      | .ok r => r
      | .error e => .failure e failOp
    let cleanupWarn : List Event := if env.rmtreeOk then [] else [.warnCleanup]
    { response := response
      trace := Event.mkdtempCall :: core.2 ++ Event.rmtreeCall :: cleanupWarn
      workspaceExists := !env.rmtreeOk }

/-- The conditions under which the modelled ffmpeg invocation satisfies
every post-condition `extract_clip` checks. -/
def ProcEnv.succeeds (p : ProcEnv) : Prop :=
  p.runningTime ≤ 600 ∧ p.returncode = 0 ∧ p.outputExists = true ∧ p.outputSize ≠ 0

lemma extract_clip_ok (i o : String) (s d : ℚ) (q : String) (p : ProcEnv)
    (h : p.succeeds) : extract_clip i o s d q p = .ok o := by
  obtain ⟨h1, h2, h3, h4⟩ := h
  simp [extract_clip, runProcess, Nat.not_lt.mpr h1, h2, h3, h4]

lemma string_append_ne (a b : String) (h : ¬ a.data <+: b.data) (e : String) :
    a ++ e ≠ b := by
  intro heq
  exact h ⟨e.data, by simpa using congrArg String.data heq⟩

/-- C6: `extract_clip` fails with a distinct, descriptive processing error
for each violated post-condition — non-zero exit code (the error carries
the captured stderr), missing output file, empty output file — and fails
with a timeout error when the external process exceeds the fixed ceiling
of 600 seconds = 10 minutes. -/
theorem extract_clip_errors (i o : String) (s d : ℚ) (q : String) (p : ProcEnv) :
    (600 = 10 * 60
      ∧ (600 < p.runningTime →
        extract_clip i o s d q p = .error "FFmpeg processing timed out after 10 minutes"))
    ∧ (p.runningTime ≤ 600 → p.returncode ≠ 0 →
        extract_clip i o s d q p
          = .error ("FFmpeg error: FFmpeg processing failed: " ++ p.stderrv))
    ∧ (p.runningTime ≤ 600 → p.returncode = 0 → p.outputExists = false →
        extract_clip i o s d q p = .error "FFmpeg error: Output file was not created")
    ∧ (p.runningTime ≤ 600 → p.returncode = 0 → p.outputExists = true → p.outputSize = 0 →
        extract_clip i o s d q p = .error "FFmpeg error: Output file is empty")
    ∧ (∀ e : String,
        ("FFmpeg error: FFmpeg processing failed: " ++ e) ≠ "FFmpeg error: Output file was not created"
        ∧ ("FFmpeg error: FFmpeg processing failed: " ++ e) ≠ "FFmpeg error: Output file is empty"
        ∧ ("FFmpeg error: FFmpeg processing failed: " ++ e) ≠ "FFmpeg processing timed out after 10 minutes")
    ∧ ("FFmpeg error: Output file was not created" ≠ "FFmpeg error: Output file is empty"
        ∧ "FFmpeg error: Output file was not created" ≠ "FFmpeg processing timed out after 10 minutes"
        ∧ "FFmpeg error: Output file is empty" ≠ "FFmpeg processing timed out after 10 minutes") := by
  refine ⟨⟨rfl, fun h => ?_⟩, fun h1 h2 => ?_, fun h1 h2 h3 => ?_, fun h1 h2 h3 h4 => ?_,
    fun e => ⟨string_append_ne _ _ (by decide) e, string_append_ne _ _ (by decide) e,
      string_append_ne _ _ (by decide) e⟩, by decide, by decide, by decide⟩
  · simp [extract_clip, runProcess, h]
  · simp [extract_clip, runProcess, Nat.not_lt.mpr h1, h2]
  · simp [extract_clip, runProcess, Nat.not_lt.mpr h1, h2, h3]
  · simp [extract_clip, runProcess, Nat.not_lt.mpr h1, h2, h3, h4]

/-- Witness for `extract_clip_errors`: the four failure shapes at
concrete process behaviours. -/
theorem extract_clip_errors_witness :
    extract_clip "i" "o" 0 5 "high" ⟨601, 0, "", "", true, 9⟩
      = .error "FFmpeg processing timed out after 10 minutes"
    ∧ extract_clip "i" "o" 0 5 "high" ⟨1, 1, "", "boom", true, 9⟩
      = .error ("FFmpeg error: FFmpeg processing failed: " ++ "boom")
    ∧ extract_clip "i" "o" 0 5 "high" ⟨1, 0, "", "", false, 0⟩
      = .error "FFmpeg error: Output file was not created"
    ∧ extract_clip "i" "o" 0 5 "high" ⟨1, 0, "", "", true, 0⟩
      = .error "FFmpeg error: Output file is empty" :=
  ⟨(extract_clip_errors "i" "o" 0 5 "high" ⟨601, 0, "", "", true, 9⟩).1.2 (by decide),
   (extract_clip_errors "i" "o" 0 5 "high" ⟨1, 1, "", "boom", true, 9⟩).2.1 (by decide) (by decide),
   (extract_clip_errors "i" "o" 0 5 "high" ⟨1, 0, "", "", false, 0⟩).2.2.1 (by decide) rfl rfl,
   (extract_clip_errors "i" "o" 0 5 "high" ⟨1, 0, "", "", true, 0⟩).2.2.2.1 (by decide) rfl rfl rfl⟩

/-- C8: an unrecognized quality value silently selects the Medium preset
(CRF 25, speed "faster"): the settings, the built command line, and the
whole behaviour of `extract_clip` coincide with quality "medium", so no
error surfaces; the recognized values select their own entry of the fixed
table. -/
theorem quality_fallback_medium (q : String)
    (hq : q ≠ "high" ∧ q ≠ "medium" ∧ q ≠ "low")
    (i o : String) (s d : ℚ) (p : ProcEnv) :
    clipSettings q = ⟨"25", "faster"⟩
    ∧ extractClipCmd i o s d q = extractClipCmd i o s d "medium"
    ∧ extract_clip i o s d q p = extract_clip i o s d "medium" p
    ∧ clipSettings "high" = ⟨"23", "fast"⟩
    ∧ clipSettings "medium" = ⟨"25", "faster"⟩
    ∧ clipSettings "low" = ⟨"28", "veryfast"⟩ := by
  obtain ⟨h1, h2, h3⟩ := hq
  have hs : clipSettings q = ⟨"25", "faster"⟩ := by
    simp [clipSettings, quality_presets, h1, h2, h3]
  exact ⟨hs,
    by simp only [extractClipCmd, hs,
      show clipSettings "medium" = ⟨"25", "faster"⟩ from by decide],
    rfl, by decide, by decide, by decide⟩

/-- Witness for `quality_fallback_medium` at the unrecognized value
"ultra". -/
theorem quality_fallback_medium_witness :
    clipSettings "ultra" = ⟨"25", "faster"⟩
    ∧ extract_clip "i" "o" 0 5 "ultra" ⟨1, 0, "", "", true, 9⟩
      = extract_clip "i" "o" 0 5 "medium" ⟨1, 0, "", "", true, 9⟩ :=
  ⟨(quality_fallback_medium "ultra" (by decide) "i" "o" 0 5 ⟨1, 0, "", "", true, 9⟩).1,
   (quality_fallback_medium "ultra" (by decide) "i" "o" 0 5 ⟨1, 0, "", "", true, 9⟩).2.2.1⟩

/-- C5 counterexample: an ffmpeg run that exits 0 and leaves an existing
but EMPTY output file makes `extract_clip` fail, yet `generate_thumbnail`
returns success — the thumbnail operation does not enforce the non-empty
post-condition, so it does not enforce "the same post-conditions as clip
extraction". -/
theorem thumbnail_empty_output_counterexample :
    (⟨1, 0, "", "", true, 0⟩ : ProcEnv).outputSize = 0
    ∧ generate_thumbnail "in.mp4" "out.jpg" 5 ⟨1, 0, "", "", true, 0⟩ = .ok "out.jpg"
    ∧ extract_clip "in.mp4" "out.mp4" 0 5 "high" ⟨1, 0, "", "", true, 0⟩
      = .error "FFmpeg error: Output file is empty" :=
  ⟨rfl, rfl, rfl⟩

/-- C5 amended: `generate_thumbnail` enforces the exit-code-zero and
output-file-existence post-conditions, each failing with a distinct
processing error (and a 30-second execution ceiling), but unlike
`extract_clip` it performs no emptiness check: whenever the process exits
0 and the output file exists, it succeeds regardless of the file size. -/
theorem thumbnail_postconditions (i o : String) (t : ℚ) (p : ProcEnv) :
    (30 < p.runningTime →
      generate_thumbnail i o t p = .error "Thumbnail error: Command timed out after 30 seconds")
    ∧ (p.runningTime ≤ 30 → p.returncode ≠ 0 →
        generate_thumbnail i o t p
          = .error ("Thumbnail error: Thumbnail generation failed: " ++ p.stderrv))
    ∧ (p.runningTime ≤ 30 → p.returncode = 0 → p.outputExists = false →
        generate_thumbnail i o t p = .error "Thumbnail error: Thumbnail file was not created")
    ∧ (p.runningTime ≤ 30 → p.returncode = 0 → p.outputExists = true →
        generate_thumbnail i o t p = .ok o)
    ∧ (∀ e : String,
        ("Thumbnail error: Thumbnail generation failed: " ++ e)
          ≠ "Thumbnail error: Thumbnail file was not created") := by
  refine ⟨fun h => ?_, fun h1 h2 => ?_, fun h1 h2 h3 => ?_, fun h1 h2 h3 => ?_,
    fun e => string_append_ne _ _ (by decide) e⟩
  · simp [generate_thumbnail, runProcess, h]
  · simp [generate_thumbnail, runProcess, Nat.not_lt.mpr h1, h2]
  · simp [generate_thumbnail, runProcess, Nat.not_lt.mpr h1, h2, h3]
  · simp [generate_thumbnail, runProcess, Nat.not_lt.mpr h1, h2, h3]

/-- Witness for `thumbnail_postconditions` at concrete process
behaviours, the success of an empty output included. -/
theorem thumbnail_postconditions_witness :
    generate_thumbnail "i" "o" 0 ⟨31, 0, "", "", true, 9⟩
      = .error "Thumbnail error: Command timed out after 30 seconds"
    ∧ generate_thumbnail "i" "o" 0 ⟨1, 1, "", "boom", true, 9⟩
      = .error ("Thumbnail error: Thumbnail generation failed: " ++ "boom")
    ∧ generate_thumbnail "i" "o" 0 ⟨1, 0, "", "", false, 0⟩
      = .error "Thumbnail error: Thumbnail file was not created"
    ∧ generate_thumbnail "i" "o" 0 ⟨1, 0, "", "", true, 0⟩ = .ok "o" :=
  ⟨(thumbnail_postconditions "i" "o" 0 ⟨31, 0, "", "", true, 9⟩).1 (by decide),
   (thumbnail_postconditions "i" "o" 0 ⟨1, 1, "", "boom", true, 9⟩).2.1 (by decide) (by decide),
   (thumbnail_postconditions "i" "o" 0 ⟨1, 0, "", "", false, 0⟩).2.2.1 (by decide) rfl rfl,
   (thumbnail_postconditions "i" "o" 0 ⟨1, 0, "", "", true, 0⟩).2.2.2.1 (by decide) rfl rfl⟩

lemma handlerCore_rmtree_irrel (td : String) (dl : Option String) (pr : Option ℚ)
    (ff : ProcEnv) (fd : List Nat) (rm b : Bool) (ji : JobInput) (ip : String) :
    handlerCore ⟨td, dl, pr, ff, fd, b⟩ ji ip = handlerCore ⟨td, dl, pr, ff, fd, rm⟩ ji ip := rfl

lemma handler_extract_response
    (td : String) (pr : Option ℚ) (ff : ProcEnv) (fd : List Nat) (rm : Bool)
    (oper : Option String) (u : String) (s d : ℚ) (t : Option ℚ) (q oFmt : Option String)
    (hu : u ≠ "") (hop : oper.getD "extract_clip" ≠ "generate_thumbnail")
    (hs : 0 ≤ s) (hd : 0 < d) (hok : ff.succeeds) :
    (handler ⟨td, none, pr, ff, fd, rm⟩ (some ⟨oper, some u, some s, some d, t, q, oFmt⟩)).response
      = .clipSuccess "extract_clip" fd fd.length (oFmt.getD "mp4") s
          (if (get_video_duration pr).1 > 0 ∧ s + d > (get_video_duration pr).1
            then (get_video_duration pr).1 - s
            else d)
          (q.getD "medium") (get_video_duration pr).1 := by
  simp only [handler, handlerCore, Option.getD_some]
  rw [if_neg hu, if_neg hop, if_neg (not_lt.mpr hs), if_neg (not_le.mpr hd),
    extract_clip_ok _ _ _ _ _ _ hok]

lemma handler_extract_call_mem
    (td : String) (pr : Option ℚ) (ff : ProcEnv) (fd : List Nat) (rm : Bool)
    (oper : Option String) (u : String) (s d : ℚ) (t : Option ℚ) (q oFmt : Option String)
    (hu : u ≠ "") (hop : oper.getD "extract_clip" ≠ "generate_thumbnail")
    (hs : 0 ≤ s) (hd : 0 < d) :
    Event.ffmpegExtractCall s
        (if (get_video_duration pr).1 > 0 ∧ s + d > (get_video_duration pr).1
          then (get_video_duration pr).1 - s
          else d)
        (q.getD "medium")
      ∈ (handler ⟨td, none, pr, ff, fd, rm⟩ (some ⟨oper, some u, some s, some d, t, q, oFmt⟩)).trace := by
  simp only [handler, handlerCore, Option.getD_some]
  rw [if_neg hu, if_neg hop, if_neg (not_lt.mpr hs), if_neg (not_le.mpr hd)]
  cases hE : extract_clip (td ++ "/input" ++
      (if splitextExt (dropQuery u) = "" then ".mp4" else splitextExt (dropQuery u)))
      (td ++ "/output." ++ oFmt.getD "mp4") s
      (if (get_video_duration pr).1 > 0 ∧ s + d > (get_video_duration pr).1
        then (get_video_duration pr).1 - s
        else d)
      (q.getD "medium") ff <;>
    simp [List.mem_append]

lemma handler_extract_invalid
    (td : String) (pr : Option ℚ) (ff : ProcEnv) (fd : List Nat) (rm : Bool)
    (oper : Option String) (u : String) (s d : ℚ) (t : Option ℚ) (q oFmt : Option String)
    (hu : u ≠ "") (hop : oper.getD "extract_clip" ≠ "generate_thumbnail")
    (hinv : s < 0 ∨ d ≤ 0) :
    handler ⟨td, none, pr, ff, fd, rm⟩ (some ⟨oper, some u, some s, some d, t, q, oFmt⟩)
      = { response := .failure (if s < 0 then "start_time must be >= 0" else "duration must be > 0")
            (oper.getD "unknown")
          trace := Event.mkdtempCall :: Event.downloadCall :: Event.probeCall ::
            ((get_video_duration pr).2 ++ Event.rmtreeCall :: (if rm then [] else [Event.warnCleanup]))
          workspaceExists := !rm } := by
  simp only [handler, handlerCore, Option.getD_some]
  rw [if_neg hu, if_neg hop]
  rcases hinv with h | h
  · rw [if_pos h, if_pos h]; simp
  · by_cases hs : s < 0
    · rw [if_pos hs, if_pos hs]; simp
    · rw [if_neg hs, if_neg hs, if_pos h]; simp

/-- C1: for an ExtractClip job with probed duration D > 0 and validated
parameters s, d with s + d > D, the duration passed to `extract_clip`
equals D - s, and the success response reports duration D - s while
echoing start_time s and video_duration D unchanged. -/
theorem extract_clamped_duration
    (td : String) (ff : ProcEnv) (fd : List Nat) (rm : Bool)
    (oper : Option String) (u : String) (s d D : ℚ) (t : Option ℚ) (q oFmt : Option String)
    (hu : u ≠ "") (hop : oper.getD "extract_clip" ≠ "generate_thumbnail")
    (hs : 0 ≤ s) (hd : 0 < d) (hD : 0 < D) (hsd : s + d > D) (hok : ff.succeeds) :
    Event.ffmpegExtractCall s (D - s) (q.getD "medium")
      ∈ (handler ⟨td, none, some D, ff, fd, rm⟩
          (some ⟨oper, some u, some s, some d, t, q, oFmt⟩)).trace
    ∧ (handler ⟨td, none, some D, ff, fd, rm⟩
          (some ⟨oper, some u, some s, some d, t, q, oFmt⟩)).response
        = .clipSuccess "extract_clip" fd fd.length (oFmt.getD "mp4") s (D - s)
            (q.getD "medium") D := by
  have h1 := handler_extract_call_mem td (some D) ff fd rm oper u s d t q oFmt hu hop hs hd
  have h2 := handler_extract_response td (some D) ff fd rm oper u s d t q oFmt hu hop hs hd hok
  simp only [get_video_duration] at h1 h2
  rw [if_pos ⟨hD, hsd⟩] at h1 h2
  exact ⟨h1, h2⟩

/-- Witness for `extract_clamped_duration`: the spec's end-to-end
scenario, a 60-second source with start_time 50 and duration 30. -/
theorem extract_clamped_duration_witness :
    Event.ffmpegExtractCall 50 (60 - 50) "high"
      ∈ (handler ⟨"/tmp/w", none, some 60, ⟨1, 0, "", "", true, 9⟩, [1, 2, 3], true⟩
          (some ⟨none, some "http://h/v.mp4", some 50, some 30, none, some "high", none⟩)).trace
    ∧ (handler ⟨"/tmp/w", none, some 60, ⟨1, 0, "", "", true, 9⟩, [1, 2, 3], true⟩
          (some ⟨none, some "http://h/v.mp4", some 50, some 30, none, some "high", none⟩)).response
        = .clipSuccess "extract_clip" [1, 2, 3] 3 "mp4" 50 (60 - 50) "high" 60 :=
  extract_clamped_duration "/tmp/w" ⟨1, 0, "", "", true, 9⟩ [1, 2, 3] true
    none "http://h/v.mp4" 50 30 60 none (some "high") none
    (by decide) (by decide) (by norm_num) (by norm_num) (by norm_num) (by norm_num)
    ⟨by decide, rfl, rfl, by decide⟩

/-- C3 counterexample: a request with start_time = -1 fails validation,
but the duration probe has already been invoked at that point, so the
validation error does not precede every external-tool invocation. -/
theorem validation_probe_counterexample :
    (handler ⟨"/tmp/w", none, some 60, ⟨1, 0, "", "", true, 9⟩, [], true⟩
        (some ⟨none, some "http://h/v.mp4", some (-1), some 30, none, none, none⟩)).response
      = .failure "start_time must be >= 0" "unknown"
    ∧ Event.probeCall ∈ (handler ⟨"/tmp/w", none, some 60, ⟨1, 0, "", "", true, 9⟩, [], true⟩
        (some ⟨none, some "http://h/v.mp4", some (-1), some 30, none, none, none⟩)).trace := by
  rw [handler_extract_invalid "/tmp/w" (some 60) ⟨1, 0, "", "", true, 9⟩ [] true
    none "http://h/v.mp4" (-1) 30 none none none
    (by decide) (by decide) (Or.inl (by norm_num))]
  rw [if_pos (by norm_num : (-1 : ℚ) < 0)]
  exact ⟨rfl, by simp [get_video_duration]⟩

/-- C3 (amended): an ExtractClip request with start_time < 0 or
duration ≤ 0 fails with the corresponding validation error before the
transcoder is invoked (no ffmpeg call appears in the trace), but only
after the download and the duration probe have already run. -/
theorem validation_after_probe
    (td : String) (pr : Option ℚ) (ff : ProcEnv) (fd : List Nat) (rm : Bool)
    (oper : Option String) (u : String) (s d : ℚ) (t : Option ℚ) (q oFmt : Option String)
    (hu : u ≠ "") (hop : oper.getD "extract_clip" ≠ "generate_thumbnail")
    (hinv : s < 0 ∨ d ≤ 0) :
    (handler ⟨td, none, pr, ff, fd, rm⟩ (some ⟨oper, some u, some s, some d, t, q, oFmt⟩)).response
      = .failure (if s < 0 then "start_time must be >= 0" else "duration must be > 0")
          (oper.getD "unknown")
    ∧ Event.probeCall
        ∈ (handler ⟨td, none, pr, ff, fd, rm⟩ (some ⟨oper, some u, some s, some d, t, q, oFmt⟩)).trace
    ∧ ((handler ⟨td, none, pr, ff, fd, rm⟩
          (some ⟨oper, some u, some s, some d, t, q, oFmt⟩)).trace.all
        fun e => ! e.isTranscode) = true := by
  rw [handler_extract_invalid td pr ff fd rm oper u s d t q oFmt hu hop hinv]
  refine ⟨rfl, by simp, ?_⟩
  rcases pr with _ | v <;> rcases rm <;> simp [get_video_duration, Event.isTranscode]

/-- Witness for `validation_after_probe` at duration = 0. -/
theorem validation_after_probe_witness :
    (handler ⟨"/tmp/w", none, some 60, ⟨1, 0, "", "", true, 9⟩, [], true⟩
        (some ⟨some "extract_clip", some "http://h/v.mp4", some 3, some 0, none, none, none⟩)).response
      = .failure "duration must be > 0" "extract_clip"
    ∧ Event.probeCall ∈ (handler ⟨"/tmp/w", none, some 60, ⟨1, 0, "", "", true, 9⟩, [], true⟩
        (some ⟨some "extract_clip", some "http://h/v.mp4", some 3, some 0, none, none, none⟩)).trace := by
  have h := validation_after_probe "/tmp/w" (some 60) ⟨1, 0, "", "", true, 9⟩ [] true
    (some "extract_clip") "http://h/v.mp4" 3 0 none none none
    (by decide) (by decide) (Or.inr (by norm_num))
  refine ⟨?_, h.2.1⟩
  rw [h.1, if_neg (by norm_num : ¬ (3 : ℚ) < 0)]
  rfl

/-- C7: when the duration probe fails, `get_video_duration` returns 0
with a recorded warning and the job proceeds: the clip is still
extracted, with the requested (unclamped) duration, and the success
response reports video_duration 0. -/
theorem probe_failure_nonfatal
    (td : String) (ff : ProcEnv) (fd : List Nat) (rm : Bool)
    (oper : Option String) (u : String) (s d : ℚ) (t : Option ℚ) (q oFmt : Option String)
    (hu : u ≠ "") (hop : oper.getD "extract_clip" ≠ "generate_thumbnail")
    (hs : 0 ≤ s) (hd : 0 < d) (hok : ff.succeeds) :
    get_video_duration none = (0, [Event.warnProbe])
    ∧ Event.warnProbe
        ∈ (handler ⟨td, none, none, ff, fd, rm⟩ (some ⟨oper, some u, some s, some d, t, q, oFmt⟩)).trace
    ∧ Event.ffmpegExtractCall s d (q.getD "medium")
        ∈ (handler ⟨td, none, none, ff, fd, rm⟩ (some ⟨oper, some u, some s, some d, t, q, oFmt⟩)).trace
    ∧ (handler ⟨td, none, none, ff, fd, rm⟩
          (some ⟨oper, some u, some s, some d, t, q, oFmt⟩)).response
        = .clipSuccess "extract_clip" fd fd.length (oFmt.getD "mp4") s d (q.getD "medium") 0 := by
  have hcl : ¬((0 : ℚ) > 0 ∧ s + d > 0) := by simp
  have h1 := handler_extract_call_mem td none ff fd rm oper u s d t q oFmt hu hop hs hd
  have h2 := handler_extract_response td none ff fd rm oper u s d t q oFmt hu hop hs hd hok
  simp only [get_video_duration] at h1 h2
  rw [if_neg hcl] at h1 h2
  refine ⟨rfl, ?_, h1, h2⟩
  simp only [handler, handlerCore, Option.getD_some, get_video_duration]
  rw [if_neg hu, if_neg hop, if_neg (not_lt.mpr hs), if_neg (not_le.mpr hd), if_neg hcl,
    extract_clip_ok _ _ _ _ _ _ hok]
  simp

/-- Witness for `probe_failure_nonfatal`: probe failure, start 5,
duration 30; the clip is extracted with duration 30 and the response
reports video_duration 0. -/
theorem probe_failure_nonfatal_witness :
    Event.warnProbe
      ∈ (handler ⟨"/tmp/w", none, none, ⟨1, 0, "", "", true, 9⟩, [7], true⟩
          (some ⟨none, some "http://h/v.mp4", some 5, some 30, none, none, none⟩)).trace
    ∧ Event.ffmpegExtractCall 5 30 "medium"
      ∈ (handler ⟨"/tmp/w", none, none, ⟨1, 0, "", "", true, 9⟩, [7], true⟩
          (some ⟨none, some "http://h/v.mp4", some 5, some 30, none, none, none⟩)).trace
    ∧ (handler ⟨"/tmp/w", none, none, ⟨1, 0, "", "", true, 9⟩, [7], true⟩
          (some ⟨none, some "http://h/v.mp4", some 5, some 30, none, none, none⟩)).response
        = .clipSuccess "extract_clip" [7] 1 "mp4" 5 30 "medium" 0 :=
  (probe_failure_nonfatal "/tmp/w" ⟨1, 0, "", "", true, 9⟩ [7] true
      none "http://h/v.mp4" 5 30 none none none
      (by decide) (by decide) (by norm_num) (by norm_num)
      ⟨by decide, rfl, rfl, by decide⟩).2

/-- C9: a request whose operation field is absent or any string other
than "generate_thumbnail" is dispatched as clip extraction — never
rejected — and the success response echoes operation "extract_clip". -/
theorem unknown_operation_dispatch
    (td : String) (pr : Option ℚ) (ff : ProcEnv) (fd : List Nat) (rm : Bool)
    (oper : Option String) (u : String) (s d : ℚ) (t : Option ℚ) (q oFmt : Option String)
    (hu : u ≠ "") (hop : oper.getD "extract_clip" ≠ "generate_thumbnail")
    (hs : 0 ≤ s) (hd : 0 < d) (hok : ff.succeeds) :
    ∃ dur2 : ℚ,
      (handler ⟨td, none, pr, ff, fd, rm⟩
          (some ⟨oper, some u, some s, some d, t, q, oFmt⟩)).response
        = .clipSuccess "extract_clip" fd fd.length (oFmt.getD "mp4") s dur2
            (q.getD "medium") (get_video_duration pr).1
      ∧ Event.ffmpegExtractCall s dur2 (q.getD "medium")
          ∈ (handler ⟨td, none, pr, ff, fd, rm⟩
              (some ⟨oper, some u, some s, some d, t, q, oFmt⟩)).trace :=
  ⟨_, handler_extract_response td pr ff fd rm oper u s d t q oFmt hu hop hs hd hok,
    handler_extract_call_mem td pr ff fd rm oper u s d t q oFmt hu hop hs hd⟩

/-- Witness for `unknown_operation_dispatch` at the unrecognized
operation value "transcode_4k". -/
theorem unknown_operation_dispatch_witness :
    ∃ dur2 : ℚ,
      (handler ⟨"/tmp/w", none, some 60, ⟨1, 0, "", "", true, 9⟩, [7], true⟩
          (some ⟨some "transcode_4k", some "http://h/v.mp4", some 5, some 30, none, none, none⟩)).response
        = .clipSuccess "extract_clip" [7] 1 "mp4" 5 dur2 "medium"
            (get_video_duration (some 60)).1
      ∧ Event.ffmpegExtractCall 5 dur2 "medium"
          ∈ (handler ⟨"/tmp/w", none, some 60, ⟨1, 0, "", "", true, 9⟩, [7], true⟩
              (some ⟨some "transcode_4k", some "http://h/v.mp4", some 5, some 30, none, none, none⟩)).trace :=
  unknown_operation_dispatch "/tmp/w" (some 60) ⟨1, 0, "", "", true, 9⟩ [7] true
    (some "transcode_4k") "http://h/v.mp4" 5 30 none none none
    (by decide) (by decide) (by norm_num) (by norm_num)
    ⟨by decide, rfl, rfl, by decide⟩

/-- C10: the duration > 0 check happens only before clamping: when the
probed duration D satisfies 0 < D ≤ s (and s + d > D), the handler
invokes `extract_clip` with the clamped duration D - s, which is ≤ 0,
without re-validating it. -/
theorem clamp_no_revalidation
    (td : String) (ff : ProcEnv) (fd : List Nat) (rm : Bool)
    (oper : Option String) (u : String) (s d D : ℚ) (t : Option ℚ) (q oFmt : Option String)
    (hu : u ≠ "") (hop : oper.getD "extract_clip" ≠ "generate_thumbnail")
    (hs : 0 ≤ s) (hd : 0 < d) (hD : 0 < D) (hDs : D ≤ s) (hsd : s + d > D) :
    Event.ffmpegExtractCall s (D - s) (q.getD "medium")
      ∈ (handler ⟨td, none, some D, ff, fd, rm⟩
          (some ⟨oper, some u, some s, some d, t, q, oFmt⟩)).trace
    ∧ D - s ≤ 0 := by
  have h1 := handler_extract_call_mem td (some D) ff fd rm oper u s d t q oFmt hu hop hs hd
  simp only [get_video_duration] at h1
  rw [if_pos ⟨hD, hsd⟩] at h1
  exact ⟨h1, by linarith⟩

/-- Witness for `clamp_no_revalidation`: a 5-second source with
start_time 10 and duration 30 leads to an extraction call with the
negative duration 5 - 10. -/
theorem clamp_no_revalidation_witness :
    Event.ffmpegExtractCall 10 (5 - 10) "medium"
      ∈ (handler ⟨"/tmp/w", none, some 5, ⟨1, 1, "", "err", false, 0⟩, [], true⟩
          (some ⟨none, some "http://h/v.mp4", some 10, some 30, none, none, none⟩)).trace
    ∧ (5 : ℚ) - 10 ≤ 0 :=
  clamp_no_revalidation "/tmp/w" ⟨1, 1, "", "err", false, 0⟩ [] true
    none "http://h/v.mp4" 10 30 5 none none none
    (by decide) (by decide) (by norm_num) (by norm_num) (by norm_num) (by norm_num) (by norm_num)

/-- C2: whenever a workspace directory is created, its removal is
attempted on every exit path (`rmtreeCall` follows `mkdtempCall` in the
trace); when the removal succeeds — it can only fail if `rmtree` itself
fails — the directory no longer exists after the handler returns; and
whether the removal succeeds or fails never changes the job's response. -/
theorem workspace_cleanup (env : Env) (inp : Option JobInput) (b : Bool) :
    ((handler env inp).workspaceExists = true →
        env.rmtreeOk = false ∧ Event.rmtreeCall ∈ (handler env inp).trace)
    ∧ (Event.mkdtempCall ∈ (handler env inp).trace →
        Event.rmtreeCall ∈ (handler env inp).trace)
    ∧ (env.rmtreeOk = true → (handler env inp).workspaceExists = false)
    ∧ (handler { env with rmtreeOk := b } inp).response = (handler env inp).response := by
  obtain ⟨td, dl, pr, ff, fd, rm⟩ := env
  by_cases h : (inp.getD emptyInput).video_url.getD "" = ""
  · refine ⟨?_, ?_, ?_, ?_⟩ <;> simp [handler, h]
  · refine ⟨fun hw => ⟨?_, ?_⟩, fun _ => ?_, fun hr => ?_, ?_⟩
    · simpa [handler, h] using hw
    · simp [handler, h]
    · simp [handler, h]
    · have hr2 : rm = true := hr
      simp [handler, h, hr2]
    · simp only [handler, if_neg h, handlerCore_rmtree_irrel td dl pr ff fd rm b]

/-- Witness for `workspace_cleanup`: a job whose download fails and whose
cleanup also fails still removed-attempted the workspace (the trace holds
the rmtree call), and the response is the same as when cleanup
succeeds. -/
theorem workspace_cleanup_witness :
    Event.rmtreeCall
      ∈ (handler ⟨"/tmp/w", some "boom", none, ⟨0, 0, "", "", true, 1⟩, [], false⟩
          (some ⟨none, some "http://h/v.mp4", none, none, none, none, none⟩)).trace
    ∧ (handler ⟨"/tmp/w", some "boom", none, ⟨0, 0, "", "", true, 1⟩, [], true⟩
          (some ⟨none, some "http://h/v.mp4", none, none, none, none, none⟩)).response
      = (handler ⟨"/tmp/w", some "boom", none, ⟨0, 0, "", "", true, 1⟩, [], false⟩
          (some ⟨none, some "http://h/v.mp4", none, none, none, none, none⟩)).response :=
  ⟨((workspace_cleanup ⟨"/tmp/w", some "boom", none, ⟨0, 0, "", "", true, 1⟩, [], false⟩
      (some ⟨none, some "http://h/v.mp4", none, none, none, none, none⟩) true).1 (by decide)).2,
    (workspace_cleanup ⟨"/tmp/w", some "boom", none, ⟨0, 0, "", "", true, 1⟩, [], false⟩
      (some ⟨none, some "http://h/v.mp4", none, none, none, none, none⟩) true).2.2.2⟩

/-- C4 counterexample: for the request `{video_url: ""}` (operation field
absent) the failure response echoes operation "unknown", not
"extract_clip" as the claim states. -/
theorem missing_url_operation_counterexample :
    (handler ⟨"", none, none, ⟨0, 0, "", "", false, 0⟩, [], true⟩
        (some ⟨none, some "", none, none, none, none, none⟩)).response
      = .failure "video_url is required" "unknown"
    ∧ (handler ⟨"", none, none, ⟨0, 0, "", "", false, 0⟩, [], true⟩
        (some ⟨none, some "", none, none, none, none, none⟩)).response
      ≠ .failure "video_url is required" "extract_clip" := by
  exact ⟨rfl, by decide⟩

/-- C4 (amended): for every request whose video_url is absent or empty,
the handler returns `{success: false, error: "video_url is required"}`
with operation echoed as the request's operation field when present and
"unknown" when absent; no workspace is ever created, none persists, and
no external effect happens. -/
theorem missing_url_failure (env : Env) (inp : Option JobInput)
    (h : (inp.getD emptyInput).video_url.getD "" = "") :
    handler env inp
      = { response := .failure "video_url is required" ((inp.getD emptyInput).operation.getD "unknown")
          trace := []
          workspaceExists := false } := by
  simp [handler, h]

/-- Witness for `missing_url_failure`: the request with empty video_url
and no operation field. -/
theorem missing_url_failure_witness :
    handler ⟨"", none, none, ⟨0, 0, "", "", false, 0⟩, [], true⟩
        (some ⟨none, some "", none, none, none, none, none⟩)
      = { response := .failure "video_url is required" "unknown"
          trace := []
          workspaceExists := false } :=
  missing_url_failure ⟨"", none, none, ⟨0, 0, "", "", false, 0⟩, [], true⟩
    (some ⟨none, some "", none, none, none, none, none⟩) rfl

end ClipForge
